import Mathlib

/-!
Shallow embedding of the Pong game core (`src/game.rs`) and verification of
the spec's claims about it.

The Rust code stores positions and velocities as `f32`; the embedding uses
exact rationals (`ℚ`).  The game's `update` method is modelled as `advance`,
taking the elapsed time `dt` (clamped to 0.05 s inside, as in the code) and
an input snapshot.  The R-key branch of `process_input` is modelled as
`spawn_ball`, with the randomly drawn velocity passed as a parameter, and
`get_random_velocity` is modelled as a function of the two integer draws.
-/

namespace Pong

structure Vector2 where
  x : ℚ
  y : ℚ
deriving DecidableEq, Repr

structure Ball where
  pos : Vector2
  vel : Vector2
deriving DecidableEq, Repr

/-- The input snapshot sampled once per frame (spec §4.1). -/
structure InputCommand where
  quit : Bool
  spawn_ball : Bool
  paddle_dir : ℤ
deriving DecidableEq, Repr

/-- The mutable world: the ball deque (front = most recently spawned) and
the paddle position. -/
structure World where
  balls : List Ball
  paddle_pos : Vector2
deriving DecidableEq, Repr

def THICKNESS : ℚ := 15

def WINDOW_WIDTH : ℚ := 1024

def WINDOW_HEIGHT : ℚ := 768

def PADDLE_WIDTH : ℚ := 6 * THICKNESS

def PADDLE_VEL : ℚ := 800

/-- `get_random_velocity`, as a function of the two integer draws
`sp_x0 ∈ [0, 400)` and `sp_y0 ∈ [-400, -200)` made by `rng.gen_range`. -/
def get_random_velocity (sp_x0 sp_y0 : ℤ) : Vector2 :=
  let sp_x : ℚ := (sp_x0 : ℚ)
  let sp_y : ℚ := (sp_y0 : ℚ)
  let sp_x := if sp_x < 200 then -(sp_x + 200) else sp_x
  { x := sp_x, y := sp_y }

/-- The R-key branch of `process_input`: evict the back when the deque holds
5 balls, then push the new center ball to the front.  The freshly drawn
velocity is passed in as `v`. -/
def spawn_ball (balls : List Ball) (v : Vector2) : List Ball :=
  let balls := if balls.length = 5 then balls.dropLast else balls
  { pos := { x := WINDOW_WIDTH / 2, y := WINDOW_HEIGHT / 2 }, vel := v } :: balls

/-- The delta-time cap at the top of `update`: `if delta_time >= 0.05
{ delta_time = 0.05 }`. -/
def clamp_dt (dt : ℚ) : ℚ :=
  if dt ≥ 1 / 20 then 1 / 20 else dt

/-- The paddle part of `update`: move only when `paddle_dir != 0`, then
clamp to the screen. -/
def move_paddle (pos : Vector2) (dir : ℤ) (dt : ℚ) : Vector2 :=
  if dir ≠ 0 then
    let x := pos.x + (dir : ℚ) * PADDLE_VEL * dt
    let x :=
      if x > WINDOW_WIDTH - PADDLE_WIDTH / 2 - THICKNESS then
        WINDOW_WIDTH - PADDLE_WIDTH / 2 - THICKNESS
      else if x < THICKNESS + PADDLE_WIDTH / 2 then
        THICKNESS + PADDLE_WIDTH / 2
      else x
    { pos with x := x }
  else pos

/-- Explicit-Euler position integration of one ball. -/
def ball_step_pos (dt : ℚ) (b : Ball) : Vector2 :=
  { x := b.pos.x + b.vel.x * dt, y := b.pos.y + b.vel.y * dt }

/-- The per-ball body of `update`'s loop: integrate the position, then the
left/right wall check, the top wall check and the paddle check, in the
code's order (the paddle check reads the velocity already updated by the
top-wall check). -/
def move_ball (paddle_pos : Vector2) (dt : ℚ) (b : Ball) : Ball :=
  let pos := ball_step_pos dt b
  let vx :=
    if (pos.x ≤ THICKNESS ∧ b.vel.x < 0) ∨
       (pos.x ≥ WINDOW_WIDTH - THICKNESS ∧ b.vel.x > 0) then
      -b.vel.x
    else b.vel.x
  let vy1 :=
    if pos.y ≤ THICKNESS ∧ b.vel.y < 0 then -b.vel.y else b.vel.y
  let vy2 :=
    if |paddle_pos.x - pos.x| ≤ PADDLE_WIDTH / 2 ∧
       pos.y ≥ WINDOW_HEIGHT - THICKNESS ∧ pos.y ≤ WINDOW_HEIGHT ∧ vy1 > 0 then
      -vy1
    else vy1
  { pos := pos, vel := { x := vx, y := vy2 } }

/-- `Game::update` as `advance(dt, input)`: clamp `dt`, move the paddle,
then move every ball against the updated paddle. -/
def advance (w : World) (dt : ℚ) (inp : InputCommand) : World :=
  let dt := clamp_dt dt
  let paddle_pos := move_paddle w.paddle_pos inp.paddle_dir dt
  { balls := w.balls.map (move_ball paddle_pos dt), paddle_pos := paddle_pos }

/-- A frame with no key pressed and no close request. -/
def noop : InputCommand := { quit := false, spawn_ball := false, paddle_dir := 0 }

/-- The world built by `Game::build`, with the two initial random draws
passed in (`v1` for the first-created ball at 3/4 width, `v2` for the
second at 1/4 width; the second push lands at the front of the deque). -/
def init_world (v1 v2 : Vector2) : World :=
  { balls :=
      [ { pos := { x := WINDOW_WIDTH / 4, y := WINDOW_HEIGHT / 2 }, vel := v2 },
        { pos := { x := WINDOW_WIDTH * 3 / 4, y := WINDOW_HEIGHT / 2 }, vel := v1 } ],
    paddle_pos := { x := WINDOW_WIDTH / 2, y := WINDOW_HEIGHT - THICKNESS } }

/-- Fold `advance` over a list of frames (dt and input per frame). -/
def advance_seq (w : World) (steps : List (ℚ × InputCommand)) : World :=
  steps.foldl (fun acc s => advance acc s.1 s.2) w

/-- The left/right wall reflection condition of `update`, on the
post-integration position. -/
def wall_cond (dt : ℚ) (b : Ball) : Prop :=
  ((ball_step_pos dt b).x ≤ THICKNESS ∧ b.vel.x < 0) ∨
  ((ball_step_pos dt b).x ≥ WINDOW_WIDTH - THICKNESS ∧ b.vel.x > 0)

/-- The top wall reflection condition of `update`. -/
def top_cond (dt : ℚ) (b : Ball) : Prop :=
  (ball_step_pos dt b).y ≤ THICKNESS ∧ b.vel.y < 0

instance (dt : ℚ) (b : Ball) : Decidable (top_cond dt b) :=
  inferInstanceAs (Decidable (_ ∧ _))

/-- The paddle reflection condition of `update`, reading the y-velocity
already updated by the top-wall check, as the code does. -/
def paddle_cond (p : Vector2) (dt : ℚ) (b : Ball) : Prop :=
  |p.x - (ball_step_pos dt b).x| ≤ PADDLE_WIDTH / 2 ∧
  (ball_step_pos dt b).y ≥ WINDOW_HEIGHT - THICKNESS ∧
  (ball_step_pos dt b).y ≤ WINDOW_HEIGHT ∧
  (if top_cond dt b then -b.vel.y else b.vel.y) > 0

section Claims

/-- Claim C1, counterexample: the draw `sp_x0 = 0` (with `sp_y0 = -300`)
produces `x = -(0 + 200) = -200`, which is outside the claimed set
`(-600, -200) ∪ [0, 400)` and inside the claimed-impossible `[-200, 0)`. -/
theorem C1_counterexample :
    (get_random_velocity 0 (-300)).x = -200 ∧
    ¬((-600 < (get_random_velocity 0 (-300)).x ∧
        (get_random_velocity 0 (-300)).x < -200) ∨
      (0 ≤ (get_random_velocity 0 (-300)).x ∧
        (get_random_velocity 0 (-300)).x < 400)) ∧
    (-200 ≤ (get_random_velocity 0 (-300)).x ∧
      (get_random_velocity 0 (-300)).x < 0) := by
  norm_num [get_random_velocity]

/-- Claim C1, amended: for every draw `sp_x0 ∈ [0, 400)` and
`sp_y0 ∈ [-400, -200)`, the returned velocity has `y ∈ [-400, -200)` and
`x ∈ (-600, -200] ∪ [0, 400)`, never in `(-200, 0)` (the claimed open bound
at `-200` is wrong: `sp_x0 = 0` yields exactly `-200`). -/
theorem C1_random_velocity_range (sp_x0 sp_y0 : ℤ)
    (hx0 : 0 ≤ sp_x0) (hx1 : sp_x0 < 400)
    (hy0 : -400 ≤ sp_y0) (hy1 : sp_y0 < -200) :
    (-400 ≤ (get_random_velocity sp_x0 sp_y0).y ∧
      (get_random_velocity sp_x0 sp_y0).y < -200) ∧
    ((-600 < (get_random_velocity sp_x0 sp_y0).x ∧
        (get_random_velocity sp_x0 sp_y0).x ≤ -200) ∨
      (0 ≤ (get_random_velocity sp_x0 sp_y0).x ∧
        (get_random_velocity sp_x0 sp_y0).x < 400)) ∧
    ¬(-200 < (get_random_velocity sp_x0 sp_y0).x ∧
        (get_random_velocity sp_x0 sp_y0).x < 0) := by
  have hx0Q : (0 : ℚ) ≤ (sp_x0 : ℚ) := by exact_mod_cast hx0
  have hx1Q : (sp_x0 : ℚ) < 400 := by exact_mod_cast hx1
  have hy0Q : (-400 : ℚ) ≤ (sp_y0 : ℚ) := by exact_mod_cast hy0
  have hy1Q : (sp_y0 : ℚ) < -200 := by exact_mod_cast hy1
  have hx : (get_random_velocity sp_x0 sp_y0).x =
      if (sp_x0 : ℚ) < 200 then -((sp_x0 : ℚ) + 200) else (sp_x0 : ℚ) := rfl
  have hy : (get_random_velocity sp_x0 sp_y0).y = (sp_y0 : ℚ) := rfl
  rw [hx, hy]
  by_cases h : (sp_x0 : ℚ) < 200
  · rw [if_pos h]
    exact ⟨⟨hy0Q, hy1Q⟩, Or.inl ⟨by linarith, by linarith⟩,
      fun hc => by linarith [hc.1]⟩
  · rw [if_neg h]
    exact ⟨⟨hy0Q, hy1Q⟩, Or.inr ⟨hx0Q, hx1Q⟩, fun hc => by linarith [hc.2]⟩

theorem C1_random_velocity_range_witness :
    ((0 : ℤ) ≤ 250 ∧ (250 : ℤ) < 400 ∧ (-400 : ℤ) ≤ -300 ∧ (-300 : ℤ) < -200) ∧
    (((-400 : ℚ) ≤ (get_random_velocity 250 (-300)).y ∧
        (get_random_velocity 250 (-300)).y < -200) ∧
      ((-600 < (get_random_velocity 250 (-300)).x ∧
          (get_random_velocity 250 (-300)).x ≤ -200) ∨
        ((0 : ℚ) ≤ (get_random_velocity 250 (-300)).x ∧
          (get_random_velocity 250 (-300)).x < 400)) ∧
      ¬((-200 : ℚ) < (get_random_velocity 250 (-300)).x ∧
          (get_random_velocity 250 (-300)).x < 0)) :=
  ⟨by norm_num,
   C1_random_velocity_range 250 (-300) (by norm_num) (by norm_num)
     (by norm_num) (by norm_num)⟩

/-- Claim C3: for every ball collection of at most 5 elements, `spawn_ball`
keeps the size at most 5; at exactly 5 it stays at 5 and the part after the
new front ball is the old collection minus its back element; in every case
the new ball sits at the front at `(512, 384)`. -/
theorem C3_spawn_ball_cap (balls : List Ball) (v : Vector2)
    (h : balls.length ≤ 5) :
    (spawn_ball balls v).length ≤ 5 ∧
    (balls.length = 5 →
      (spawn_ball balls v).length = 5 ∧
      (spawn_ball balls v).tail = balls.dropLast) ∧
    (spawn_ball balls v).head? =
      some { pos := { x := 512, y := 384 }, vel := v } := by
  unfold spawn_ball
  by_cases h5 : balls.length = 5
  · refine ⟨?_, fun _ => ⟨?_, ?_⟩, ?_⟩
    · simp [h5, List.length_dropLast]
    · simp [h5, List.length_dropLast]
    · simp [h5]
    · norm_num [h5, WINDOW_WIDTH, WINDOW_HEIGHT]
  · refine ⟨?_, fun hcon => absurd hcon h5, ?_⟩
    · have : balls.length ≤ 4 := by omega
      simp [h5]
      omega
    · norm_num [h5, WINDOW_WIDTH, WINDOW_HEIGHT]

def bzero : Ball := { pos := { x := 0, y := 0 }, vel := { x := 0, y := 0 } }

def five_balls : List Ball := [bzero, bzero, bzero, bzero, bzero]

theorem C3_spawn_ball_cap_witness :
    five_balls.length ≤ 5 ∧
    ((spawn_ball five_balls bzero.vel).length ≤ 5 ∧
      (five_balls.length = 5 →
        (spawn_ball five_balls bzero.vel).length = 5 ∧
        (spawn_ball five_balls bzero.vel).tail = five_balls.dropLast) ∧
      (spawn_ball five_balls bzero.vel).head? =
        some { pos := { x := 512, y := 384 }, vel := bzero.vel }) :=
  ⟨by simp [five_balls], C3_spawn_ball_cap five_balls bzero.vel (by simp [five_balls])⟩

def wC5 : World := { balls := [], paddle_pos := { x := 512, y := 753 } }

def inp_right : InputCommand := { quit := false, spawn_ball := false, paddle_dir := 1 }

/-- Claim C5, counterexample: from paddle `x = 512`, `paddle_dir = 1` and an
elapsed time of 0.1 s, one `advance` leaves the paddle at 552, not the
claimed 592, because `update` clamps the delta time to 0.05 s. -/
theorem C5_counterexample :
    wC5.paddle_pos.x = 512 ∧
    (advance wC5 (1 / 10) inp_right).paddle_pos.x = 552 ∧
    (advance wC5 (1 / 10) inp_right).paddle_pos.x ≠ 592 := by
  norm_num [wC5, inp_right, advance, clamp_dt, move_paddle,
    WINDOW_WIDTH, PADDLE_WIDTH, PADDLE_VEL, THICKNESS]

/-- Claim C5, amended: with the paddle at `x = 512`, `paddle_dir = 1` and
elapsed time 0.1 s, `advance` clamps the delta time to 0.05 s and moves the
paddle to `512 + 800 * 0.05 = 552`. -/
theorem C5_paddle_move_clamped (w : World) (h : w.paddle_pos.x = 512) :
    (advance w (1 / 10) inp_right).paddle_pos.x = 552 := by
  norm_num [advance, clamp_dt, move_paddle, inp_right, h,
    WINDOW_WIDTH, PADDLE_WIDTH, PADDLE_VEL, THICKNESS]

theorem C5_paddle_move_clamped_witness :
    wC5.paddle_pos.x = 512 ∧
    (advance wC5 (1 / 10) inp_right).paddle_pos.x = 552 :=
  ⟨by norm_num [wC5], C5_paddle_move_clamped wC5 (by norm_num [wC5])⟩

/-- Claim C10: when the input's `paddle_dir` is 0, `advance` leaves the
paddle position exactly as it was — no movement and no clamping, so even an
out-of-range paddle position is not corrected. -/
theorem C10_paddle_frozen (w : World) (dt : ℚ) (inp : InputCommand)
    (h : inp.paddle_dir = 0) :
    (advance w dt inp).paddle_pos = w.paddle_pos := by
  simp [advance, move_paddle, h]

def wC10 : World := { balls := [], paddle_pos := { x := 2000, y := 753 } }

theorem C10_paddle_frozen_witness :
    (advance wC10 (1 / 100) noop).paddle_pos = wC10.paddle_pos :=
  C10_paddle_frozen wC10 (1 / 100) noop rfl

lemma move_paddle_bounds (pos : Vector2) (dir : ℤ) (dt : ℚ)
    (h1 : THICKNESS + PADDLE_WIDTH / 2 ≤ pos.x)
    (h2 : pos.x ≤ WINDOW_WIDTH - THICKNESS - PADDLE_WIDTH / 2) :
    THICKNESS + PADDLE_WIDTH / 2 ≤ (move_paddle pos dir dt).x ∧
    (move_paddle pos dir dt).x ≤ WINDOW_WIDTH - THICKNESS - PADDLE_WIDTH / 2 := by
  simp only [move_paddle, THICKNESS, WINDOW_WIDTH, PADDLE_WIDTH, PADDLE_VEL] at *
  norm_num at *
  split_ifs <;> constructor <;> first | linarith | norm_num <;> linarith

lemma advance_paddle_bounds (w : World) (dt : ℚ) (inp : InputCommand)
    (h1 : THICKNESS + PADDLE_WIDTH / 2 ≤ w.paddle_pos.x)
    (h2 : w.paddle_pos.x ≤ WINDOW_WIDTH - THICKNESS - PADDLE_WIDTH / 2) :
    THICKNESS + PADDLE_WIDTH / 2 ≤ (advance w dt inp).paddle_pos.x ∧
    (advance w dt inp).paddle_pos.x ≤
      WINDOW_WIDTH - THICKNESS - PADDLE_WIDTH / 2 := by
  have hadv : (advance w dt inp).paddle_pos =
      move_paddle w.paddle_pos inp.paddle_dir (clamp_dt dt) := rfl
  rw [hadv]
  exact move_paddle_bounds w.paddle_pos inp.paddle_dir (clamp_dt dt) h1 h2

lemma advance_seq_paddle_bounds (steps : List (ℚ × InputCommand)) (w : World)
    (h1 : THICKNESS + PADDLE_WIDTH / 2 ≤ w.paddle_pos.x)
    (h2 : w.paddle_pos.x ≤ WINDOW_WIDTH - THICKNESS - PADDLE_WIDTH / 2) :
    THICKNESS + PADDLE_WIDTH / 2 ≤ (advance_seq w steps).paddle_pos.x ∧
    (advance_seq w steps).paddle_pos.x ≤
      WINDOW_WIDTH - THICKNESS - PADDLE_WIDTH / 2 := by
  induction steps generalizing w with
  | nil => exact ⟨h1, h2⟩
  | cons s rest ih =>
      have hstep := advance_paddle_bounds w s.1 s.2 h1 h2
      exact ih (advance w s.1 s.2) hstep.1 hstep.2

/-- Claim C2: starting from the initial world (paddle at `x = 512`), after
any sequence of `advance` calls with any delta times and inputs, the
paddle's `x` stays within `[THICKNESS + PADDLE_WIDTH/2,
WINDOW_WIDTH - THICKNESS - PADDLE_WIDTH/2] = [60, 964]`. -/
theorem C2_paddle_invariant (v1 v2 : Vector2)
    (steps : List (ℚ × InputCommand)) :
    (THICKNESS + PADDLE_WIDTH / 2 ≤
        (advance_seq (init_world v1 v2) steps).paddle_pos.x ∧
      (advance_seq (init_world v1 v2) steps).paddle_pos.x ≤
        WINDOW_WIDTH - THICKNESS - PADDLE_WIDTH / 2) ∧
    60 ≤ (advance_seq (init_world v1 v2) steps).paddle_pos.x ∧
    (advance_seq (init_world v1 v2) steps).paddle_pos.x ≤ 964 := by
  have h := advance_seq_paddle_bounds steps (init_world v1 v2)
    (by norm_num [init_world, THICKNESS, WINDOW_WIDTH, PADDLE_WIDTH])
    (by norm_num [init_world, THICKNESS, WINDOW_WIDTH, PADDLE_WIDTH])
  refine ⟨h, ?_, ?_⟩
  · have := h.1
    norm_num [THICKNESS, PADDLE_WIDTH] at this
    exact this
  · have := h.2
    norm_num [THICKNESS, WINDOW_WIDTH, PADDLE_WIDTH] at this
    exact this

lemma clamp_dt_of_le (dt : ℚ) (h : dt ≤ 1 / 20) : clamp_dt dt = dt := by
  unfold clamp_dt
  split
  · linarith
  · rfl

lemma move_ball_left_wall (p : Vector2) (dt : ℚ) (b : Ball)
    (h0 : 0 < dt) (hvx : b.vel.x < 0) (hpx : b.pos.x ≤ THICKNESS) :
    0 < (move_ball p dt b).vel.x := by
  have hstep : (ball_step_pos dt b).x ≤ THICKNESS := by
    have := mul_neg_of_neg_of_pos hvx h0
    simp only [ball_step_pos]
    linarith
  have hvel : (move_ball p dt b).vel.x =
      if ((ball_step_pos dt b).x ≤ THICKNESS ∧ b.vel.x < 0) ∨
         ((ball_step_pos dt b).x ≥ WINDOW_WIDTH - THICKNESS ∧ b.vel.x > 0) then
        -b.vel.x else b.vel.x := rfl
  rw [hvel, if_pos (Or.inl ⟨hstep, hvx⟩)]
  linarith

/-- Claim C4: for every `dt ∈ (0, 0.05]` and every ball of the world with
`vel.x < 0` and pre-update `pos.x ≤ THICKNESS`, after one `advance` call
that ball (still at the same index) has `vel.x > 0`: the left-wall
reflection fires even though the condition is checked post-integration. -/
theorem C4_left_wall_reflects (w : World) (dt : ℚ) (inp : InputCommand)
    (i : ℕ) (b : Ball) (hb : w.balls[i]? = some b)
    (h0 : 0 < dt) (h1 : dt ≤ 1 / 20)
    (hvx : b.vel.x < 0) (hpx : b.pos.x ≤ THICKNESS) :
    (advance w dt inp).balls[i]? =
      some (move_ball (move_paddle w.paddle_pos inp.paddle_dir (clamp_dt dt))
        (clamp_dt dt) b) ∧
    0 < (move_ball (move_paddle w.paddle_pos inp.paddle_dir (clamp_dt dt))
        (clamp_dt dt) b).vel.x := by
  constructor
  · show (w.balls.map _)[i]? = _
    rw [List.getElem?_map, hb]
    rfl
  · rw [clamp_dt_of_le dt h1]
    exact move_ball_left_wall _ dt b h0 hvx hpx

def bC4 : Ball := { pos := { x := 15, y := 300 }, vel := { x := -100, y := 50 } }

def wC4 : World := { balls := [bC4], paddle_pos := { x := 512, y := 753 } }

theorem C4_left_wall_reflects_witness :
    (advance wC4 (1 / 100) noop).balls[0]? =
      some (move_ball (move_paddle wC4.paddle_pos noop.paddle_dir
        (clamp_dt (1 / 100))) (clamp_dt (1 / 100)) bC4) ∧
    0 < (move_ball (move_paddle wC4.paddle_pos noop.paddle_dir
        (clamp_dt (1 / 100))) (clamp_dt (1 / 100)) bC4).vel.x :=
  C4_left_wall_reflects wC4 (1 / 100) noop 0 bC4 rfl (by norm_num)
    (by norm_num) (by norm_num [bC4]) (by norm_num [bC4, THICKNESS])

/-- Claim C6: `advance` never adds or removes a ball — the collection's
length is preserved and the ball at each index is exactly the moved old
ball at that index; and a ball whose post-integration `y` is past the
bottom edge is not reflected there: its position is the integrated one and
its `vel.y` is unchanged. -/
theorem C6_advance_preserves_balls (w : World) (dt : ℚ) (inp : InputCommand) :
    ((advance w dt inp).balls.length = w.balls.length) ∧
    (∀ i : ℕ, (advance w dt inp).balls[i]? =
      (w.balls[i]?).map (move_ball
        (move_paddle w.paddle_pos inp.paddle_dir (clamp_dt dt))
        (clamp_dt dt))) ∧
    (∀ (p : Vector2) (d : ℚ) (b : Ball),
      WINDOW_HEIGHT < (ball_step_pos d b).y →
        (move_ball p d b).pos = ball_step_pos d b ∧
        (move_ball p d b).vel.y = b.vel.y) := by
  refine ⟨?_, ?_, ?_⟩
  · show (w.balls.map _).length = _
    rw [List.length_map]
  · intro i
    show (w.balls.map _)[i]? = _
    rw [List.getElem?_map]
  · intro p d b hy
    refine ⟨rfl, ?_⟩
    have hnotTop : ¬((ball_step_pos d b).y ≤ THICKNESS ∧ b.vel.y < 0) := by
      intro hc
      have h15 : (ball_step_pos d b).y ≤ 15 := by
        have := hc.1
        norm_num [THICKNESS] at this
        exact this
      have h768 : (768 : ℚ) < (ball_step_pos d b).y := by
        have := hy
        norm_num [WINDOW_HEIGHT] at this
        exact this
      linarith
    have hvy : (move_ball p d b).vel.y =
        if |p.x - (ball_step_pos d b).x| ≤ PADDLE_WIDTH / 2 ∧
           (ball_step_pos d b).y ≥ WINDOW_HEIGHT - THICKNESS ∧
           (ball_step_pos d b).y ≤ WINDOW_HEIGHT ∧
           (if (ball_step_pos d b).y ≤ THICKNESS ∧ b.vel.y < 0 then
              -b.vel.y else b.vel.y) > 0 then
          -(if (ball_step_pos d b).y ≤ THICKNESS ∧ b.vel.y < 0 then
              -b.vel.y else b.vel.y)
        else
          (if (ball_step_pos d b).y ≤ THICKNESS ∧ b.vel.y < 0 then
              -b.vel.y else b.vel.y) := rfl
    rw [hvy, if_neg hnotTop]
    have hnotPaddle : ¬(|p.x - (ball_step_pos d b).x| ≤ PADDLE_WIDTH / 2 ∧
        (ball_step_pos d b).y ≥ WINDOW_HEIGHT - THICKNESS ∧
        (ball_step_pos d b).y ≤ WINDOW_HEIGHT ∧ b.vel.y > 0) :=
      fun hc => absurd hc.2.2.1 (not_le.mpr hy)
    rw [if_neg hnotPaddle]

def pC6 : Vector2 := { x := 512, y := 753 }

def bC6 : Ball := { pos := { x := 500, y := 800 }, vel := { x := 10, y := 10 } }

def wC6 : World := { balls := [bC6], paddle_pos := pC6 }

theorem C6_advance_preserves_balls_witness :
    (advance wC6 1 noop).balls.length = wC6.balls.length ∧
    (move_ball pC6 1 bC6).vel.y = bC6.vel.y :=
  ⟨(C6_advance_preserves_balls wC6 1 noop).1,
   ((C6_advance_preserves_balls wC6 1 noop).2.2 pC6 1 bC6
     (by norm_num [ball_step_pos, bC6, WINDOW_HEIGHT])).2⟩

def bC7 : Ball := { pos := { x := 15, y := 760 }, vel := { x := -100, y := 50 } }

def wC7 : World := { balls := [bC7], paddle_pos := { x := 60, y := 753 } }

/-- Claim C7, counterexample: with the paddle at `x = 60` and a ball whose
post-integration state is `pos = (15, 760)`, `vel = (-100, 50)`, all the
claimed paddle-hit conditions hold, the ball's `vel.y` is negated, but its
`vel.x` is NOT left unchanged: the left-wall reflection also fires in the
same `advance` call and flips it to `100`. -/
theorem C7_counterexample :
    (|wC7.paddle_pos.x - (ball_step_pos (clamp_dt 0) bC7).x| ≤ PADDLE_WIDTH / 2 ∧
      (ball_step_pos (clamp_dt 0) bC7).y ≥ WINDOW_HEIGHT - THICKNESS ∧
      (ball_step_pos (clamp_dt 0) bC7).y ≤ WINDOW_HEIGHT ∧
      bC7.vel.y > 0) ∧
    (advance wC7 0 noop).balls[0]? =
      some { pos := { x := 15, y := 760 }, vel := { x := 100, y := -50 } } ∧
    (100 : ℚ) ≠ bC7.vel.x := by
  norm_num [wC7, bC7, advance, clamp_dt, move_paddle, move_ball, ball_step_pos,
    noop, THICKNESS, WINDOW_WIDTH, WINDOW_HEIGHT, PADDLE_WIDTH]

/-- Claim C7, amended: during one `advance` call, every ball whose
post-integration state satisfies the paddle-hit conditions
(`|paddle.x - ball.x| ≤ PADDLE_WIDTH/2`, `WINDOW_HEIGHT - THICKNESS ≤ y ≤
WINDOW_HEIGHT`, `vel.y > 0`) gets its `vel.y` negated; its `vel.x` is left
unchanged provided the left/right wall condition does not also hold for
that ball (otherwise the wall reflection, not the paddle, flips `vel.x`). -/
theorem C7_paddle_reflection (p : Vector2) (dt : ℚ) (b : Ball)
    (hx : |p.x - (ball_step_pos dt b).x| ≤ PADDLE_WIDTH / 2)
    (hy1 : (ball_step_pos dt b).y ≥ WINDOW_HEIGHT - THICKNESS)
    (hy2 : (ball_step_pos dt b).y ≤ WINDOW_HEIGHT)
    (hvy : 0 < b.vel.y) :
    (move_ball p dt b).vel.y = -b.vel.y ∧
    (¬wall_cond dt b → (move_ball p dt b).vel.x = b.vel.x) := by
  have hnotTop : ¬((ball_step_pos dt b).y ≤ THICKNESS ∧ b.vel.y < 0) :=
    fun hc => absurd hvy (not_lt.mpr (le_of_lt hc.2))
  constructor
  · have hvy_eq : (move_ball p dt b).vel.y =
        if |p.x - (ball_step_pos dt b).x| ≤ PADDLE_WIDTH / 2 ∧
           (ball_step_pos dt b).y ≥ WINDOW_HEIGHT - THICKNESS ∧
           (ball_step_pos dt b).y ≤ WINDOW_HEIGHT ∧
           (if (ball_step_pos dt b).y ≤ THICKNESS ∧ b.vel.y < 0 then
              -b.vel.y else b.vel.y) > 0 then
          -(if (ball_step_pos dt b).y ≤ THICKNESS ∧ b.vel.y < 0 then
              -b.vel.y else b.vel.y)
        else
          (if (ball_step_pos dt b).y ≤ THICKNESS ∧ b.vel.y < 0 then
              -b.vel.y else b.vel.y) := rfl
    rw [hvy_eq, if_neg hnotTop, if_pos ⟨hx, hy1, hy2, hvy⟩]
  · intro hwall
    have hvx_eq : (move_ball p dt b).vel.x =
        if ((ball_step_pos dt b).x ≤ THICKNESS ∧ b.vel.x < 0) ∨
           ((ball_step_pos dt b).x ≥ WINDOW_WIDTH - THICKNESS ∧ b.vel.x > 0) then
          -b.vel.x else b.vel.x := rfl
    rw [hvx_eq, if_neg ?hnw]
    case hnw =>
      intro hc
      exact hwall hc

def pC7 : Vector2 := { x := 512, y := 753 }

def bC7w : Ball := { pos := { x := 500, y := 755 }, vel := { x := 0, y := 100 } }

theorem C7_paddle_reflection_witness :
    (move_ball pC7 (1 / 100) bC7w).vel.y = -bC7w.vel.y ∧
    (move_ball pC7 (1 / 100) bC7w).vel.x = bC7w.vel.x :=
  ⟨(C7_paddle_reflection pC7 (1 / 100) bC7w
      (by norm_num [pC7, bC7w, ball_step_pos, PADDLE_WIDTH, THICKNESS])
      (by norm_num [bC7w, ball_step_pos, WINDOW_HEIGHT, THICKNESS])
      (by norm_num [bC7w, ball_step_pos, WINDOW_HEIGHT])
      (by norm_num [bC7w])).1,
   (C7_paddle_reflection pC7 (1 / 100) bC7w
      (by norm_num [pC7, bC7w, ball_step_pos, PADDLE_WIDTH, THICKNESS])
      (by norm_num [bC7w, ball_step_pos, WINDOW_HEIGHT, THICKNESS])
      (by norm_num [bC7w, ball_step_pos, WINDOW_HEIGHT])
      (by norm_num [bC7w])).2
     (by norm_num [wall_cond, bC7w, ball_step_pos, THICKNESS, WINDOW_WIDTH])⟩

lemma move_ball_zero_pos (p : Vector2) (b : Ball) :
    (move_ball p 0 b).pos = b.pos := by
  have hpos : (move_ball p 0 b).pos = ball_step_pos 0 b := rfl
  rw [hpos]
  cases b with
  | mk pos vel =>
      cases pos with
      | mk px py => simp [ball_step_pos]

/-- Claim C8: `advance` with `dt = 0` and a no-op input leaves the paddle
position and every ball's position exactly unchanged; yet a velocity
component may still flip sign when a ball sits exactly at a boundary moving
into it, as the concrete boundary world shows. -/
theorem C8_zero_dt_positions :
    (∀ w : World,
      (advance w 0 noop).paddle_pos = w.paddle_pos ∧
      (advance w 0 noop).balls.map Ball.pos = w.balls.map Ball.pos) ∧
    (advance wC4 0 noop).balls.map Ball.vel ≠ wC4.balls.map Ball.vel := by
  constructor
  · intro w
    constructor
    · simp [advance, move_paddle, noop]
    · show ((w.balls.map (move_ball _ (clamp_dt 0))).map Ball.pos) = _
      have hdt : clamp_dt 0 = 0 := by norm_num [clamp_dt]
      rw [hdt, List.map_map]
      refine List.map_congr_left ?_
      intro b _
      exact move_ball_zero_pos _ b
  · norm_num [advance, clamp_dt, move_paddle, move_ball, ball_step_pos, noop,
      wC4, bC4, THICKNESS, WINDOW_WIDTH, WINDOW_HEIGHT, PADDLE_WIDTH]

/-- Claim C9: one `advance` call preserves `|vel.x|` and `|vel.y|` of every
ball — each component ends equal to its old value or its negation — and the
top-wall condition and the paddle condition can never both fire for the
same ball in the same call. -/
theorem C9_reflections_preserve_speed (p : Vector2) (dt : ℚ) (b : Ball) :
    |(move_ball p dt b).vel.x| = |b.vel.x| ∧
    |(move_ball p dt b).vel.y| = |b.vel.y| ∧
    ((move_ball p dt b).vel.x = b.vel.x ∨
      (move_ball p dt b).vel.x = -b.vel.x) ∧
    ((move_ball p dt b).vel.y = b.vel.y ∨
      (move_ball p dt b).vel.y = -b.vel.y) ∧
    ¬(top_cond dt b ∧ paddle_cond p dt b) := by
  have hvx : (move_ball p dt b).vel.x =
      if ((ball_step_pos dt b).x ≤ THICKNESS ∧ b.vel.x < 0) ∨
         ((ball_step_pos dt b).x ≥ WINDOW_WIDTH - THICKNESS ∧ b.vel.x > 0) then
        -b.vel.x else b.vel.x := rfl
  have hvy : (move_ball p dt b).vel.y =
      if |p.x - (ball_step_pos dt b).x| ≤ PADDLE_WIDTH / 2 ∧
         (ball_step_pos dt b).y ≥ WINDOW_HEIGHT - THICKNESS ∧
         (ball_step_pos dt b).y ≤ WINDOW_HEIGHT ∧
         (if (ball_step_pos dt b).y ≤ THICKNESS ∧ b.vel.y < 0 then
            -b.vel.y else b.vel.y) > 0 then
        -(if (ball_step_pos dt b).y ≤ THICKNESS ∧ b.vel.y < 0 then
            -b.vel.y else b.vel.y)
      else
        (if (ball_step_pos dt b).y ≤ THICKNESS ∧ b.vel.y < 0 then
            -b.vel.y else b.vel.y) := rfl
  refine ⟨?_, ?_, ?_, ?_, ?_⟩
  · rw [hvx]
    split_ifs
    · exact abs_neg b.vel.x
    · rfl
  · rw [hvy]
    split_ifs <;> simp [abs_neg, neg_neg]
  · rw [hvx]
    split_ifs
    · exact Or.inr rfl
    · exact Or.inl rfl
  · rw [hvy]
    split_ifs <;> simp [neg_neg]
  · intro hc
    have h1 := hc.1
    have h2 := hc.2
    unfold top_cond at h1
    unfold paddle_cond at h2
    have hty : (ball_step_pos dt b).y ≤ 15 := by
      have := h1.1
      norm_num [THICKNESS] at this
      exact this
    have hpy : (753 : ℚ) ≤ (ball_step_pos dt b).y := by
      have := h2.2.1
      norm_num [WINDOW_HEIGHT, THICKNESS] at this
      exact this
    linarith

theorem C9_reflections_preserve_speed_witness :
    |(move_ball pC6 (1 / 100) bC4).vel.x| = |bC4.vel.x| ∧
    |(move_ball pC6 (1 / 100) bC4).vel.y| = |bC4.vel.y| ∧
    ((move_ball pC6 (1 / 100) bC4).vel.x = bC4.vel.x ∨
      (move_ball pC6 (1 / 100) bC4).vel.x = -bC4.vel.x) ∧
    ((move_ball pC6 (1 / 100) bC4).vel.y = bC4.vel.y ∨
      (move_ball pC6 (1 / 100) bC4).vel.y = -bC4.vel.y) ∧
    ¬(top_cond (1 / 100) bC4 ∧ paddle_cond pC6 (1 / 100) bC4) :=
  C9_reflections_preserve_speed pC6 (1 / 100) bC4

end Claims

end Pong
